import Mathlib

/-!
Shallow embedding of the two farm-stand express applications:
the product-only variant (src/unnamed/part_000), the farm variant
(src/index.js), and the cascade-delete hook whose code is given in
src/README.md lines 104-109.  MongoDB documents become Lean structures
keyed by numeric identifiers, collections become lists, and each route
handler becomes a function from the database state and the request data
to the new state together with an outcome: either a rendered view, a
redirect, or an error forwarded (wrapAsync catching a rejection and
calling next) into the two-stage error middleware chain.
-/

namespace FarmStand

/-- Product document (section 3 of the spec): name, price, category and an
optional back-reference to the identifier of an owning farm. -/
structure Product where
  pid : Nat
  name : String
  price : Int
  category : String
  farm : Option Nat := none
  deriving DecidableEq

/-- Farm document: name, city, email and a list of identifiers of owned products. -/
structure Farm where
  fid : Nat
  name : String
  city : String
  email : String
  products : List Nat := []
  deriving DecidableEq

/-- The persisted state: the Product and Farm collections, plus a counter
from which a fresh ObjectId is drawn when a document is constructed. -/
structure DB where
  products : List Product
  farms : List Farm
  nextId : Nat
  deriving DecidableEq

/-- A javascript error value as seen by the express error middleware:
its name, and its status and message fields when they are defined. -/
structure Err where
  name : String
  status : Option Nat := none
  message : Option String := none
  deriving DecidableEq

/-- Modelled from the spec: AppError (the file AppError.js required by
src/unnamed/part_000 line 6 is not among the sources) is the generic
application error carrying an HTTP status and a message, as described in
section 4.4 of the spec. -/
def AppError (msg : String) (st : Nat) : Err :=
  { name := "AppError", status := some st, message := some msg }

/-- A mongoose schema-validation failure: its name is "ValidationError"
and it has no status field. -/
def validationError (msg : String) : Err :=
  { name := "ValidationError", status := none, message := some msg }

/-- The error thrown in src/index.js when a guard evaluates
new AppError(...): index.js lines 1-10 never require AppError, so the
reference throws a ReferenceError whose message names the identifier. -/
def referenceErrorAppError : Err :=
  { name := "ReferenceError", status := none,
    message := some "AppError is not defined" }

/-- The error thrown by src/index.js line 66 when the farm lookup returned
null: reading the products field of null is a TypeError with this message. -/
def nullProductsTypeError : Err :=
  { name := "TypeError", status := none,
    message := some "Cannot read properties of null (reading \x27products\x27)" }

/-- Model.findById on the Product collection: the document whose identifier matches. -/
def Product.findById (db : DB) (id : Nat) : Option Product :=
  db.products.find? (fun p => p.pid == id)

/-- Product.find({ category }) : the products whose category field equals the argument. -/
def Product.findCategory (db : DB) (c : String) : List Product :=
  db.products.filter (fun p => p.category == c)

/-- Product.deleteMany({ _id: { $in: ids } }) : remove every product whose
identifier occurs in the list. -/
def Product.deleteManyIdIn (db : DB) (ids : List Nat) : DB :=
  { db with products := db.products.filter (fun p => !(ids.contains p.pid)) }

/-- Model.findById on the Farm collection. -/
def Farm.findById (db : DB) (id : Nat) : Option Farm :=
  db.farms.find? (fun f => f.fid == id)

/-- The cascade hook, from src/README.md lines 104-109:
after a farm document was deleted, if its products array is non-empty
(javascript truthiness of its length), bulk-delete every product whose
identifier is in that array.  The boolean records whether the
Product.deleteMany call was issued. -/
def farmSchemaPostFindOneAndDelete (db : DB) (farm : Farm) : DB × Bool :=
  if farm.products.length ≠ 0 then
    (Product.deleteManyIdIn db farm.products, true)
  else
    (db, false)

/-- Farm.findByIdAndDelete: find the farm, remove it from the collection,
then run the post findOneAndDelete hook on the deleted document.  Returns
the new state, the deleted document, and whether the hook issued a
Product.deleteMany call. -/
def Farm.findByIdAndDelete (db : DB) (id : Nat) : DB × Option Farm × Bool :=
  match Farm.findById db id with
  | none => (db, none, false)
  | some farm =>
    let db1 : DB := { db with farms := db.farms.eraseP (fun f => f.fid == id) }
    let r := farmSchemaPostFindOneAndDelete db1 farm
    (r.1, some farm, r.2)

/-- A successful handler response: a rendered view with its context, or a redirect. -/
inductive Response where
  | renderIndex (products : List Product) (category : String)
  | renderDetails (product : Option Product)
  | renderEdit (product : Product) (categories : List String)
  | redirect (path : String)
  deriving DecidableEq

/-- Outcome of a route handler: a response, or an error handed to next
(for the wrapAsync routes, a caught rejection forwarded to the chain). -/
inductive Outcome where
  | ok (r : Response)
  | err (e : Err)
  deriving DecidableEq

/-- The categories array, src/unnamed/part_000 line 25 and src/index.js line 10. -/
def categories : List String := ["fruit", "vegetables", "dairy"]

/-- Request body of a product form: a field is none when it was not submitted. -/
structure ProductBody where
  name : Option String := none
  price : Option Int := none
  category : Option String := none
  deriving DecidableEq

/-- Modelled from the spec: the Product schema (the file models/product.js
required by both variants is not among the sources).  Section 3 of the
spec: name is a required string, price a required number, category is one
of the fixed closed set fruit/vegetables/dairy.  Saving with validators
rejects with a mongoose error whose name is "ValidationError" when a
required field is missing or the category is outside the set. -/
def validateProductFields (n : Option String) (pr : Option Int) (c : Option String) :
    Option Err :=
  match n with
  | none => some (validationError "Product validation failed: name is required")
  | some _ =>
    match pr with
    | none => some (validationError "Product validation failed: price is required")
    | some _ =>
      match c with
      | none => none
      | some cat =>
        if cat ∈ categories then none
        else some (validationError
          ("Product validation failed: " ++ cat ++ " is not a valid enum value"))

/-- The error classifier middleware, src/unnamed/part_000 lines 97-107 and
src/index.js lines 138-148: handleValidationErr rewraps a mongoose
validation failure as an AppError with status 400 and a message built by
template interpolation from the original message; the middleware applies it
exactly when the error name is "ValidationError" and passes the error on.
(The middleware declares its parameters as (err, res, req, next) with req
and res swapped, but it only reads err and calls next, so the swap has no
effect on behaviour.) -/
def handleValidationErr (e : Err) : Err :=
  AppError ("Validation failed... " ++ e.message.getD "undefined") 400

/-- The classifier stage of the chain. -/
def classifyError (e : Err) : Err :=
  if e.name = "ValidationError" then handleValidationErr e else e

/-- The terminal error middleware, src/unnamed/part_000 lines 109-112 and
src/index.js lines 150-153: destructure status (defaulting to 500 when the
field is undefined) and message (defaulting to "Something went wrong") from
the error and send the message as the whole body with that status code. -/
def terminalErrorMiddleware (e : Err) : Nat × String :=
  (e.status.getD 500, e.message.getD "Something went wrong")

/-- The full error chain applied to an error handed to next. -/
def errorResponse (e : Err) : Nat × String :=
  terminalErrorMiddleware (classifyError e)

/-- The HTTP-level result of a request: a rendered or redirect response
from the handler, or the status and body written by the error chain. -/
inductive HttpResult where
  | rendered (r : Response)
  | sent (status : Nat) (body : String)
  deriving DecidableEq

/-- Route outcomes pass through the error middleware chain when they are errors. -/
def finalize : Outcome → HttpResult
  | .ok r => .rendered r
  | .err e => .sent (errorResponse e).1 (errorResponse e).2

/-- GET /products, identical in src/unnamed/part_000 lines 33-42 and
src/index.js lines 81-90: when the category query value is truthy
(present and non-empty) render the index view over Product.find with that
category and label it with the category; otherwise render all products
labelled "All". -/
def getProductsRoute (db : DB) (q : Option String) : Response :=
  match q with
  | some c =>
    if c ≠ "" then .renderIndex (Product.findCategory db c) c
    else .renderIndex db.products "All"
  | none => .renderIndex db.products "All"

/-- POST /products, src/unnamed/part_000 lines 49-56: construct a product
from the body (drawing a fresh identifier), save it (running schema
validation; a rejection is caught by wrapAsync and forwarded), and
redirect to the detail path of the new document.  The not-found guard on
the freshly constructed document is unreachable and not modelled. -/
def postProductsRoute (db : DB) (body : ProductBody) : DB × Outcome :=
  match validateProductFields body.name body.price body.category with
  | some e => (db, .err e)
  | none =>
    let p : Product :=
      { pid := db.nextId, name := body.name.getD "", price := body.price.getD 0,
        category := body.category.getD "", farm := none }
    ({ db with products := db.products ++ [p], nextId := db.nextId + 1 },
     .ok (.redirect ("/products/" ++ toString p.pid)))

/-- GET /products/:id in src/unnamed/part_000 lines 59-66: fetch by
identifier; when nothing matches, forward AppError("Product not found", 404)
to next; otherwise render the details view. -/
def getProductDetailRoute (db : DB) (id : Nat) : Outcome :=
  match Product.findById db id with
  | none => .err (AppError "Product not found" 404)
  | some p => .ok (.renderDetails (some p))

/-- GET /products/:id in src/index.js lines 103-107: fetch by identifier
(populating the farm name) and render the details view with whatever was
found — there is no not-found guard in this variant, so a missing
identifier renders the view with a null product. -/
def getProductDetailRouteFarmApp (db : DB) (id : Nat) : Outcome :=
  .ok (.renderDetails (Product.findById db id))

/-- GET /products/:id/edit in src/unnamed/part_000 lines 69-76. -/
def getProductEditRoute (db : DB) (id : Nat) : Outcome :=
  match Product.findById db id with
  | none => .err (AppError "Product not found" 404)
  | some p => .ok (.renderEdit p categories)

/-- GET /products/:id/edit in src/index.js lines 110-117: the guard
evaluates new AppError(...), but AppError is never required in index.js,
so the guard throws a ReferenceError, which wrapAsync forwards to next. -/
def getProductEditRouteFarmApp (db : DB) (id : Nat) : Outcome :=
  match Product.findById db id with
  | none => .err referenceErrorAppError
  | some p => .ok (.renderEdit p categories)

/-- Apply a findByIdAndUpdate body to a document: submitted fields replace
the stored ones, absent fields are kept. -/
def Product.applyUpdate (p : Product) (body : ProductBody) : Product :=
  { p with name := body.name.getD p.name, price := body.price.getD p.price,
           category := body.category.getD p.category }

/-- Product.findByIdAndUpdate(id, body, runValidators, new): find by
identifier (null when absent), apply the update, re-run the field
validators (a failure rejects), persist, and return the updated document. -/
def Product.findByIdAndUpdate (db : DB) (id : Nat) (body : ProductBody) :
    Except Err (DB × Option Product) :=
  match Product.findById db id with
  | none => .ok (db, none)
  | some p =>
    let p2 := Product.applyUpdate p body
    match validateProductFields (some p2.name) (some p2.price) (some p2.category) with
    | some e => .error e
    | none =>
      .ok ({ db with products :=
               db.products.map (fun q => if q.pid == id then p2 else q) },
           some p2)

/-- PUT /products/:id in src/unnamed/part_000 lines 79-86: update with
validators re-applied; forward AppError("Product not found", 404) when the
identifier resolves to nothing; otherwise redirect to the detail path of
the updated document. -/
def putProductRoute (db : DB) (id : Nat) (body : ProductBody) : DB × Outcome :=
  match Product.findByIdAndUpdate db id body with
  | .error e => (db, .err e)
  | .ok (db2, none) => (db2, .err (AppError "Product not found" 404))
  | .ok (db2, some p) => (db2, .ok (.redirect ("/products/" ++ toString p.pid)))

/-- PUT /products/:id in src/index.js lines 120-127: same handler, except
that the not-found guard throws a ReferenceError because AppError is not
defined in that file. -/
def putProductRouteFarmApp (db : DB) (id : Nat) (body : ProductBody) : DB × Outcome :=
  match Product.findByIdAndUpdate db id body with
  | .error e => (db, .err e)
  | .ok (db2, none) => (db2, .err referenceErrorAppError)
  | .ok (db2, some p) => (db2, .ok (.redirect ("/products/" ++ toString p.pid)))

/-- Product.findByIdAndDelete: remove the matching document, returning it. -/
def Product.findByIdAndDelete (db : DB) (id : Nat) : DB × Option Product :=
  match Product.findById db id with
  | none => (db, none)
  | some p =>
    ({ db with products := db.products.eraseP (fun q => q.pid == id) }, some p)

/-- DELETE /products/:id in src/unnamed/part_000 lines 88-95. -/
def deleteProductRoute (db : DB) (id : Nat) : DB × Outcome :=
  match Product.findByIdAndDelete db id with
  | (db2, none) => (db2, .err (AppError "Product not found" 404))
  | (db2, some _) => (db2, .ok (.redirect "/products"))

/-- DELETE /products/:id in src/index.js lines 129-136: the not-found guard
throws a ReferenceError because AppError is not defined in that file. -/
def deleteProductRouteFarmApp (db : DB) (id : Nat) : DB × Outcome :=
  match Product.findByIdAndDelete db id with
  | (db2, none) => (db2, .err referenceErrorAppError)
  | (db2, some _) => (db2, .ok (.redirect "/products"))

/-- POST /farms/:id/products, src/index.js lines 61-71: find the farm, build
a product from the flat body fields, push it onto the products array of the
farm, set the back-reference of the product to the farm, then save the farm
and save the product (the latter running schema validation) as two separate
writes, and redirect to the farm detail path.  When the farm lookup
returned null, reading its products field throws a TypeError, which
wrapAsync forwards to next. -/
def postFarmProductsRoute (db : DB) (id : Nat) (body : ProductBody) : DB × Outcome :=
  match Farm.findById db id with
  | none => (db, .err nullProductsTypeError)
  | some farm =>
    let pid := db.nextId
    let farm2 : Farm := { farm with products := farm.products ++ [pid] }
    let db1 : DB :=
      { db with farms := db.farms.map (fun f => if f.fid == id then farm2 else f) }
    match validateProductFields body.name body.price body.category with
    | some e => (db1, .err e)
    | none =>
      let p : Product :=
        { pid := pid, name := body.name.getD "", price := body.price.getD 0,
          category := body.category.getD "", farm := some farm.fid }
      ({ db1 with products := db1.products ++ [p], nextId := db.nextId + 1 },
       .ok (.redirect ("/farms/" ++ toString id)))

/-- DELETE /farms/:id, src/index.js lines 73-76: findByIdAndDelete (which
runs the cascade hook) and redirect to the farm list. -/
def deleteFarmRoute (db : DB) (id : Nat) : DB × Response :=
  ((Farm.findByIdAndDelete db id).1, .redirect "/farms")

/-- A one-product, one-farm fixture used by the concrete witnesses. -/
def prodEx : Product :=
  { pid := 10, name := "milk", price := 3, category := "dairy", farm := some 1 }

/-- The farm of the fixture, owning the single product. -/
def farmEx : Farm :=
  { fid := 1, name := "Full Belly", city := "Davis", email := "fb@farm.com",
    products := [10] }

/-- A farm with an empty products array, for the no-op guard witness. -/
def farmEmptyEx : Farm :=
  { fid := 2, name := "Bare", city := "Yolo", email := "b@farm.com", products := [] }

/-- Fixture database holding the two farms and the product. -/
def dbEx : DB := { products := [prodEx], farms := [farmEx, farmEmptyEx], nextId := 11 }

/-- The empty database. -/
def dbEmpty : DB := { products := [], farms := [], nextId := 0 }

/-- A fully populated valid product body. -/
def bodyEx : ProductBody :=
  { name := some "cheese", price := some 7, category := some "dairy" }

/-- Helper: mapping a list with a pointwise replacement at the matching
positions moves find? to the replacement, provided the replacement itself
matches. -/
theorem find?_map_replace {α : Type} (p : α → Bool) (c : α) (hc : p c = true) :
    ∀ (l : List α) (a : α), l.find? p = some a →
      (l.map (fun x => if p x then c else x)).find? p = some c := by
  intro l
  induction l with
  | nil => intro a h; simp at h
  | cons x xs ih =>
    intro a h
    by_cases hx : p x = true
    · simp only [List.map_cons, if_pos hx]
      exact List.find?_cons_of_pos _ hc
    · rw [List.find?_cons_of_neg _ hx] at h
      simp only [List.map_cons, if_neg hx]
      rw [List.find?_cons_of_neg _ hx]
      exact ih a h

/-- Helper: find? over an append skips a first block with no match. -/
theorem find?_append_right {α : Type} (p : α → Bool) (l1 l2 : List α)
    (h : ∀ x ∈ l1, ¬ p x = true) : (l1 ++ l2).find? p = l2.find? p := by
  rw [List.find?_append, List.find?_eq_none.2 h, Option.none_or]

/-- Claim C5: listing with no category query renders every product in the
collection with the category label "All"; listing with category=dairy
renders exactly the products whose category field equals "dairy". -/
theorem products_list_category_filter (db : DB) :
    getProductsRoute db none = .renderIndex db.products "All" ∧
    ∃ l, getProductsRoute db (some "dairy") = .renderIndex l "dairy" ∧
      ∀ p : Product, p ∈ l ↔ p ∈ db.products ∧ p.category = "dairy" := by
  refine ⟨rfl, db.products.filter (fun p => p.category == "dairy"), rfl, ?_⟩
  intro p
  simp [List.mem_filter]

/-- Claim C8: the terminal error middleware responds with the status field
of the error when present and 500 otherwise, and its whole body is the
message field of the error when present and "Something went wrong"
otherwise. -/
theorem terminal_error_middleware_spec (e : Err) :
    (∀ s, e.status = some s → (terminalErrorMiddleware e).1 = s) ∧
    (e.status = none → (terminalErrorMiddleware e).1 = 500) ∧
    (∀ m, e.message = some m → (terminalErrorMiddleware e).2 = m) ∧
    (e.message = none → (terminalErrorMiddleware e).2 = "Something went wrong") := by
  refine ⟨?_, ?_, ?_, ?_⟩
  · intro s hs; simp [terminalErrorMiddleware, hs]
  · intro hs; simp [terminalErrorMiddleware, hs]
  · intro m hm; simp [terminalErrorMiddleware, hm]
  · intro hm; simp [terminalErrorMiddleware, hm]

/-- Witness for C8 at two concrete errors. -/
theorem terminal_error_middleware_spec_witness :
    (terminalErrorMiddleware (AppError "gone" 404)).1 = 404 ∧
    (terminalErrorMiddleware { name := "E" }).2 = "Something went wrong" :=
  ⟨(terminal_error_middleware_spec (AppError "gone" 404)).1 404 rfl,
   (terminal_error_middleware_spec { name := "E" }).2.2.2 rfl⟩

/-- Claim C7: deleting a farm whose products array is empty issues no
Product.deleteMany call and leaves the product collection untouched. -/
theorem farm_delete_empty_products_noop (db : DB) (fid : Nat) (farm : Farm)
    (hfind : Farm.findById db fid = some farm) (hemp : farm.products = []) :
    (Farm.findByIdAndDelete db fid).2.2 = false ∧
    ((Farm.findByIdAndDelete db fid).1).products = db.products := by
  unfold Farm.findByIdAndDelete
  rw [hfind]
  simp [farmSchemaPostFindOneAndDelete, hemp]

/-- Witness for C7 on the fixture farm with an empty products array. -/
theorem farm_delete_empty_products_noop_witness :
    (Farm.findByIdAndDelete dbEx 2).2.2 = false ∧
    ((Farm.findByIdAndDelete dbEx 2).1).products = dbEx.products :=
  farm_delete_empty_products_noop dbEx 2 farmEmptyEx rfl rfl

/-- Claim C1: after the farm-delete route runs on an existing farm, every
product whose identifier was referenced in the products array of that farm
is no longer retrievable by identifier: the cascade hook deleted them all. -/
theorem farm_delete_cascades (db : DB) (fid : Nat) (farm : Farm)
    (hfind : Farm.findById db fid = some farm) :
    ∀ pid ∈ farm.products, Product.findById (deleteFarmRoute db fid).1 pid = none := by
  intro pid hpid
  unfold deleteFarmRoute Farm.findByIdAndDelete
  rw [hfind]
  have hlen : farm.products.length ≠ 0 := by
    intro h0
    rw [List.length_eq_zero] at h0
    rw [h0] at hpid
    cases hpid
  simp only [farmSchemaPostFindOneAndDelete, if_pos hlen]
  simp only [Product.findById, Product.deleteManyIdIn, List.find?_eq_none]
  intro x hx
  rw [List.mem_filter] at hx
  have hnotin : ¬ x.pid ∈ farm.products := by
    intro hmem
    have h2 := hx.2
    simp [List.contains, hmem] at h2
  intro hbeq
  have hxp : x.pid = pid := by rwa [beq_iff_eq] at hbeq
  exact hnotin (hxp ▸ hpid)

/-- Witness for C1 on the fixture: the single owned product is gone. -/
theorem farm_delete_cascades_witness :
    Product.findById (deleteFarmRoute dbEx 1).1 10 = none :=
  farm_delete_cascades dbEx 1 farmEx rfl 10 (by decide)

/-- Claim C2: posting a product whose body is missing a required field
yields, through the error chain, status 400 and a body beginning with
"Validation failed..." (the rewrap of the schema-validation error). -/
theorem post_product_missing_required_field (db : DB) (body : ProductBody)
    (h : body.name = none ∨ body.price = none) :
    ∃ t, finalize (postProductsRoute db body).2 =
      .sent 400 ("Validation failed... " ++ t) := by
  rcases h with h | h
  · refine ⟨"Product validation failed: name is required", ?_⟩
    unfold postProductsRoute validateProductFields
    rw [h]
    rfl
  · cases hn : body.name with
    | none =>
      refine ⟨"Product validation failed: name is required", ?_⟩
      unfold postProductsRoute validateProductFields
      rw [hn]
      rfl
    | some s =>
      refine ⟨"Product validation failed: price is required", ?_⟩
      unfold postProductsRoute validateProductFields
      rw [hn, h]
      rfl

/-- Witness for C2: a body with no name field. -/
theorem post_product_missing_required_field_witness :
    ∃ t, finalize (postProductsRoute dbEmpty
        { name := none, price := some 2, category := some "dairy" }).2 =
      .sent 400 ("Validation failed... " ++ t) :=
  post_product_missing_required_field dbEmpty
    { name := none, price := some 2, category := some "dairy" } (Or.inl rfl)

/-- Counterexample to C3 as stated: in the farm variant (src/index.js),
fetching a missing product does not produce the 404 response with body
"Product not found" — the handler has no guard and renders the details
view with a null product. -/
theorem product_detail_farm_app_counterexample :
    finalize (getProductDetailRouteFarmApp dbEmpty 1) ≠
      HttpResult.sent 404 "Product not found" ∧
    getProductDetailRouteFarmApp dbEmpty 1 = .ok (.renderDetails none) := by
  exact ⟨by decide, rfl⟩

/-- Claim C3 amended: fetching a product by an identifier that resolves to
nothing yields status 404 with body exactly "Product not found" in the
product-only variant; the farm variant has no not-found guard on its
detail route and instead renders the details view with a null product. -/
theorem product_detail_not_found (db : DB) (id : Nat)
    (h : Product.findById db id = none) :
    finalize (getProductDetailRoute db id) = .sent 404 "Product not found" ∧
    getProductDetailRouteFarmApp db id = .ok (.renderDetails none) := by
  constructor
  · unfold getProductDetailRoute
    rw [h]
    rfl
  · unfold getProductDetailRouteFarmApp
    rw [h]

/-- Witness for the amended C3 on the empty database. -/
theorem product_detail_not_found_witness :
    finalize (getProductDetailRoute dbEmpty 1) = .sent 404 "Product not found" ∧
    getProductDetailRouteFarmApp dbEmpty 1 = .ok (.renderDetails none) :=
  product_detail_not_found dbEmpty 1 rfl

/-- Claim C4: adding a product to an existing farm leaves both sides of the
link in agreement: the stored new product carries the farm identifier as
its back-reference, and the stored farm lists the new product identifier in
its products array.  Freshness of the drawn identifier is the invariant
that every stored product identifier is below the counter. -/
theorem add_product_to_farm_links_both_sides (db : DB) (fid : Nat) (farm : Farm)
    (body : ProductBody)
    (hfarm : Farm.findById db fid = some farm)
    (hvalid : validateProductFields body.name body.price body.category = none)
    (hfresh : ∀ p ∈ db.products, p.pid < db.nextId) :
    ∃ p, Product.findById (postFarmProductsRoute db fid body).1 db.nextId = some p ∧
      p.farm = some fid ∧
      ∃ f, Farm.findById (postFarmProductsRoute db fid body).1 fid = some f ∧
        db.nextId ∈ f.products := by
  have hffid : farm.fid = fid := by
    have := List.find?_some hfarm
    rwa [beq_iff_eq] at this
  unfold postFarmProductsRoute
  rw [hfarm, hvalid]
  refine ⟨{ pid := db.nextId, name := body.name.getD "", price := body.price.getD 0,
            category := body.category.getD "", farm := some farm.fid }, ?_, ?_, ?_⟩
  · unfold Product.findById
    dsimp only
    rw [find?_append_right _ db.products _
      (by
        intro x hx hbeq
        have hxe : x.pid = db.nextId := by rwa [beq_iff_eq] at hbeq
        exact absurd (hxe ▸ hfresh x hx) (Nat.lt_irrefl _))]
    exact List.find?_cons_of_pos _ (by simp)
  · simp [hffid]
  · refine ⟨{ farm with products := farm.products ++ [db.nextId] }, ?_, ?_⟩
    · unfold Farm.findById
      dsimp only
      exact find?_map_replace _ _ (by simp [hffid]) db.farms farm hfarm
    · simp

/-- Witness for C4 on the fixture farm and a valid dairy body. -/
theorem add_product_to_farm_links_both_sides_witness :
    ∃ p, Product.findById (postFarmProductsRoute dbEx 1 bodyEx).1 dbEx.nextId = some p ∧
      p.farm = some 1 ∧
      ∃ f, Farm.findById (postFarmProductsRoute dbEx 1 bodyEx).1 1 = some f ∧
        dbEx.nextId ∈ f.products :=
  add_product_to_farm_links_both_sides dbEx 1 farmEx bodyEx rfl rfl (by decide)

/-- Claim C6: updating an existing product with fields that pass the
re-applied validation persists the updated fields and redirects to the
detail path of that product; when the identifier resolves to nothing the
route fails with the NotFound application error, responding 404 with body
"Product not found". -/
theorem put_product_update_spec (db : DB) (id : Nat) (body : ProductBody)
    (hvalid : ∀ p, Product.findById db id = some p →
      validateProductFields (some (Product.applyUpdate p body).name)
        (some (Product.applyUpdate p body).price)
        (some (Product.applyUpdate p body).category) = none) :
    (∀ p, Product.findById db id = some p →
      Product.findById (putProductRoute db id body).1 id =
        some (Product.applyUpdate p body) ∧
      (putProductRoute db id body).2 =
        .ok (.redirect ("/products/" ++ toString id))) ∧
    (Product.findById db id = none →
      (putProductRoute db id body).2 = .err (AppError "Product not found" 404) ∧
      finalize (putProductRoute db id body).2 = .sent 404 "Product not found") := by
  constructor
  · intro p hp
    have hpid : p.pid = id := by
      have := List.find?_some hp
      rwa [beq_iff_eq] at this
    have hpid2 : (Product.applyUpdate p body).pid = id := hpid
    unfold putProductRoute Product.findByIdAndUpdate
    rw [hp]
    dsimp only
    rw [hvalid p hp]
    dsimp only
    constructor
    · unfold Product.findById
      dsimp only
      exact find?_map_replace _ _ (by simp [hpid2]) db.products p hp
    · rw [hpid2]
  · intro h
    unfold putProductRoute Product.findByIdAndUpdate
    rw [h]
    exact ⟨rfl, rfl⟩

/-- Witness for C6 on the fixture product with a valid body. -/
theorem put_product_update_spec_witness :
    Product.findById (putProductRoute dbEx 10 bodyEx).1 10 =
      some (Product.applyUpdate prodEx bodyEx) ∧
    (putProductRoute dbEx 10 bodyEx).2 =
      .ok (.redirect ("/products/" ++ toString 10)) :=
  (put_product_update_spec dbEx 10 bodyEx (by
    intro p hp
    have h := Option.some.inj
      ((rfl : Product.findById dbEx 10 = some prodEx).symm.trans hp)
    subst h
    rfl)).1 prodEx rfl

/-- Counterexample to C9 as stated: on a missing identifier the edit route
of the farm variant responds 500, but its body is the ReferenceError
message "AppError is not defined", not "Something went wrong". -/
theorem farm_app_missing_product_counterexample :
    finalize (getProductEditRouteFarmApp dbEmpty 1) ≠
      HttpResult.sent 500 "Something went wrong" ∧
    finalize (getProductEditRouteFarmApp dbEmpty 1) =
      .sent 500 "AppError is not defined" := by
  exact ⟨by decide, rfl⟩

/-- Claim C9 amended: AppError is referenced but never defined in
src/index.js, so on a missing identifier the edit, update and delete
product routes of the farm variant each forward a ReferenceError and the
response is status 500 with body "AppError is not defined" (the message of
the ReferenceError), rather than 404 "Product not found". -/
theorem farm_app_guards_reference_error (db : DB) (id : Nat) (body : ProductBody)
    (h : Product.findById db id = none) :
    finalize (getProductEditRouteFarmApp db id) =
      .sent 500 "AppError is not defined" ∧
    finalize (putProductRouteFarmApp db id body).2 =
      .sent 500 "AppError is not defined" ∧
    finalize (deleteProductRouteFarmApp db id).2 =
      .sent 500 "AppError is not defined" := by
  refine ⟨?_, ?_, ?_⟩
  · unfold getProductEditRouteFarmApp
    rw [h]
    rfl
  · unfold putProductRouteFarmApp Product.findByIdAndUpdate
    rw [h]
    rfl
  · unfold deleteProductRouteFarmApp Product.findByIdAndDelete
    rw [h]
    rfl

/-- Witness for the amended C9 on the empty database. -/
theorem farm_app_guards_reference_error_witness :
    finalize (getProductEditRouteFarmApp dbEmpty 1) =
      .sent 500 "AppError is not defined" ∧
    finalize (putProductRouteFarmApp dbEmpty 1 bodyEx).2 =
      .sent 500 "AppError is not defined" ∧
    finalize (deleteProductRouteFarmApp dbEmpty 1).2 =
      .sent 500 "AppError is not defined" :=
  farm_app_guards_reference_error dbEmpty 1 bodyEx rfl

/-- Counterexample to C10 as stated: adding a product to a missing farm
responds 500, but the body is the TypeError message from dereferencing
null, not "Something went wrong". -/
theorem add_product_missing_farm_counterexample :
    finalize (postFarmProductsRoute dbEmpty 7 bodyEx).2 ≠
      HttpResult.sent 500 "Something went wrong" ∧
    finalize (postFarmProductsRoute dbEmpty 7 bodyEx).2 =
      .sent 500 "Cannot read properties of null (reading \x27products\x27)" := by
  exact ⟨by decide, rfl⟩

/-- Claim C10 amended: when the farm identifier resolves to no farm, the
handler dereferences the products field of null, the TypeError is
forwarded by wrapAsync to the error chain, the database is unchanged, and
the response is status 500 with the TypeError message as body — not a 404
NotFound response and not "Something went wrong". -/
theorem add_product_missing_farm_type_error (db : DB) (id : Nat) (body : ProductBody)
    (h : Farm.findById db id = none) :
    (postFarmProductsRoute db id body).2 = .err nullProductsTypeError ∧
    finalize (postFarmProductsRoute db id body).2 =
      .sent 500 "Cannot read properties of null (reading \x27products\x27)" ∧
    (postFarmProductsRoute db id body).1 = db := by
  unfold postFarmProductsRoute
  rw [h]
  exact ⟨rfl, rfl, rfl⟩

/-- Witness for the amended C10 on the empty database. -/
theorem add_product_missing_farm_type_error_witness :
    (postFarmProductsRoute dbEmpty 7 bodyEx).2 = .err nullProductsTypeError ∧
    finalize (postFarmProductsRoute dbEmpty 7 bodyEx).2 =
      .sent 500 "Cannot read properties of null (reading \x27products\x27)" ∧
    (postFarmProductsRoute dbEmpty 7 bodyEx).1 = dbEmpty :=
  add_product_missing_farm_type_error dbEmpty 7 bodyEx rfl

end FarmStand
